import Mathlib

/-!
Shallow embedding of the MPInterfaces packaging manifest (`setup.py`).

The manifest computes
  `MPINT_DIR = os.path.dirname(os.path.abspath(__file__))`
and calls `setup(...)` with literal metadata, dependency lists,
`long_description = open(os.path.join(os.path.dirname(__file__), 'README.rst')).read()`,
and `scripts = glob.glob(os.path.join(MPINT_DIR, "scripts", "*"))`.

We model POSIX path strings and the relevant `os.path` / `glob` semantics over
`String`, a filesystem state as a list of entries (path, directory flag, file
content), and the evaluation of the manifest as a function from filesystem,
working directory, `__file__` value and a dependency-resolvability oracle to
`Except String SetupArgs`.  Path normalization of `.`/`..` segments is not
modelled; all paths are taken literally, as the manifest itself never
introduces dot segments.
-/

namespace MPInt

/-- Drop trailing `/` characters from a character list. -/
def stripTrailingSlashes (l : List Char) : List Char :=
  (l.reverse.dropWhile (· == '/')).reverse

/-- The characters of `p` up to and including the last `/` (empty when `p`
has no `/`): the `head` computed by POSIX `os.path.dirname`. -/
def dirnameHead (p : String) : List Char :=
  (p.toList.reverse.dropWhile (· != '/')).reverse

/-- POSIX `os.path.dirname`: everything up to the last `/`, with trailing
slashes stripped unless the head consists only of slashes. -/
def dirname (p : String) : String :=
  if dirnameHead p = [] then ""
  else if (dirnameHead p).all (· == '/') then String.mk (dirnameHead p)
  else String.mk (stripTrailingSlashes (dirnameHead p))

/-- POSIX `os.path.basename`: everything after the last `/`. -/
def basename (p : String) : String :=
  String.mk ((p.toList.reverse.takeWhile (· != '/')).reverse)

/-- POSIX absolute-path test: the path begins with `/`. -/
def isAbs (p : String) : Bool :=
  p.toList.head? == some '/'

/-- Whether the path ends in `/` (used by `os.path.join`). -/
def endsWithSlash (p : String) : Bool :=
  p.toList.getLast? == some '/'

/-- POSIX `os.path.join` on two components: an absolute second component
replaces the first; otherwise a separator is inserted when needed. -/
def pathJoin (a b : String) : String :=
  if isAbs b then b
  else if a = "" || endsWithSlash a then a ++ b
  else a ++ "/" ++ b

/-- Models `os.path.abspath` without dot-segment normalization: a relative
path is resolved against the working directory. -/
def abspath (cwd p : String) : String :=
  if isAbs p then p else pathJoin cwd p

/-- Whether the name begins with a dot (hidden entry, skipped by `glob`). -/
def startsWithDot (p : String) : Bool :=
  p.toList.head? == some '.'

/-- One filesystem entry: its (absolute) path, whether it is a directory,
and its content when it is a regular file. -/
structure FSEntry where
  path : String
  isDir : Bool
  content : String
deriving DecidableEq

/-- A filesystem state: the list of all existing entries. -/
abbrev FS := List FSEntry

/-- A regular file entry. -/
def file (p c : String) : FSEntry := ⟨p, false, c⟩

/-- A directory entry. -/
def dirEntry (p : String) : FSEntry := ⟨p, true, ""⟩

/-- Models `open(p).read()`: succeeds with the content exactly when a regular
file exists at `p` (opening a missing path or a directory raises). -/
def readFile (fs : FS) (p : String) : Option String :=
  match fs.find? (fun e => e.path == p && !e.isDir) with
  | some e => some e.content
  | none => none

/-- Models `glob.glob` on the pattern `d/*`: the entries whose parent
directory is `d` and whose name does not begin with a dot, regular files and
directories alike; `*` does not cross `/`, so only direct children match. -/
def globStar (fs : FS) (d : String) : List String :=
  (fs.filter (fun e => dirname e.path == d && !startsWithDot (basename e.path))).map (·.path)

/-- All regular files strictly below directory `d`, at any depth (what "every
file under the directory" denotes, as opposed to what the glob returns). -/
def filesUnder (fs : FS) (d : String) : List String :=
  (fs.filter (fun e => !e.isDir && (d ++ "/").toList.isPrefixOf e.path.toList)).map (·.path)

/-- Models `setuptools.find_packages()`: called with no argument, it scans
the working directory for package directories (directories containing an
`__init__.py`). -/
def findPackages (fs : FS) (cwd : String) : List String :=
  (fs.filter (fun e => e.isDir && dirname e.path == cwd
      && (fs.any (fun f => f.path == pathJoin e.path "__init__.py" && !f.isDir)))).map
    (fun e => basename e.path)

/-- The manifest's `MPINT_DIR = os.path.dirname(os.path.abspath(__file__))`. -/
def MPINT_DIR (cwd fileArg : String) : String :=
  dirname (abspath cwd fileArg)

/-- The directory the scripts glob ranges over:
`os.path.join(MPINT_DIR, "scripts")`. -/
def scriptsGlobDir (cwd fileArg : String) : String :=
  pathJoin (MPINT_DIR cwd fileArg) "scripts"

/-- The scripts argument: `glob.glob(os.path.join(MPINT_DIR, "scripts", "*"))`. -/
def scriptsOf (fs : FS) (cwd fileArg : String) : List String :=
  globStar fs (scriptsGlobDir cwd fileArg)

/-- The README path `os.path.join(os.path.dirname(__file__), 'README.rst')`:
built from the raw, un-absolutized directory component of `__file__`. -/
def readmeRelPath (fileArg : String) : String :=
  pathJoin (dirname fileArg) "README.rst"

/-- The path the kernel actually opens for `README.rst`: a relative path is
resolved against the working directory by the OS. -/
def readmeResolved (cwd fileArg : String) : String :=
  abspath cwd (readmeRelPath fileArg)

/-- The `install_requires` literal of the manifest. -/
def install_requires : List String :=
  ["pymatgen==3.4.1", "FireWorks>=1.2.2", "custodian>=0.8.8",
   "pymatgen-db>=0.5.1", "ase>=3.9.1"]

/-- The `extras_require` literal of the manifest. -/
def extras_require : List (String × List String) :=
  [("plot", ["matplotlib>=1.4.2"]),
   ("babel", ["openbabel", "pybel"]),
   ("remote", ["fabric"]),
   ("doc", ["sphinx>=1.3.1", "sphinx-rtd-theme>=0.1.8"])]

/-- The `classifiers` literal of the manifest. -/
def classifiers : List String :=
  ["Programming Language :: Python :: 2.7",
   "Development Status :: 4 - Beta",
   "Intended Audience :: Science/Research",
   "License :: OSI Approved :: GNU General Public License v3 or later (GPLv3+)",
   "Operating System :: OS Independent",
   "Topic :: Scientific/Engineering"]

/-- The error message of the manifest raised when `README.rst` cannot be
opened. -/
def readmeError : String :=
  "IOError: No such file or directory: README.rst"

/-- The arguments the `setup(...)` call receives. -/
structure SetupArgs where
  name : String
  version : String
  install_requires : List String
  extras_require : List (String × List String)
  author : String
  author_email : String
  description : String
  license : String
  url : String
  packages : List String
  long_description : String
  classifiers : List String
  scripts : List String
deriving DecidableEq

/-- Evaluating the manifest: the arguments of `setup(...)` are evaluated
first (the `open(...).read()` for `README.rst` raises if the file is
missing, before anything is registered); the packaging toolchain then fails
if some declared dependency is unresolvable, and otherwise the call
succeeds with the assembled arguments. -/
def evalManifest (fs : FS) (cwd fileArg : String) (resolvable : String → Bool) :
    Except String SetupArgs :=
  match readFile fs (readmeResolved cwd fileArg) with
  | none => .error readmeError
  | some ld =>
    if install_requires.all resolvable then
      .ok
        { name := "mpinterfaces"
          version := "1.1.2"
          install_requires := install_requires
          extras_require := extras_require
          author := "Kiran Mathew, Joshua Gabriel, Arunima Singh, Richard G. Hennig"
          author_email := "km468@cornell.edu"
          description := "High throughput analysis of interfaces using VASP and Materials Project tools"
          license := "GPL"
          url := "https://github.com/henniggroup/MPInterfaces"
          packages := findPackages fs cwd
          long_description := ld
          classifiers := classifiers
          scripts := scriptsOf fs cwd fileArg }
    else .error "DistributionNotFound: a declared dependency is unresolvable"

/-- Whether the requirement string carries a version constraint
(an `==`, `>=`, `<=`, `>` or `<` comparison). -/
def hasVersionConstraint (r : String) : Bool :=
  r.toList.any (fun c => c == '=' || c == '<' || c == '>')

/-- The scripts list of a manifest evaluation result (empty on error). -/
def scriptsResult : Except String SetupArgs → List String
  | .ok a => a.scripts
  | .error _ => []

/-- The setup arguments of a manifest evaluation result, `none` on error. -/
def resultArgs : Except String SetupArgs → Option SetupArgs
  | .ok a => some a
  | .error _ => none

/-- A concrete filesystem: the project at `/proj` with a README, a regular
script, a hidden file and a subdirectory (with a file inside) under
`scripts/`. -/
def fsC1 : FS :=
  [file "/proj/setup.py" "",
   file "/proj/README.rst" "MPInterfaces",
   dirEntry "/proj/scripts",
   file "/proj/scripts/run_all.py" "",
   file "/proj/scripts/.hidden" "",
   dirEntry "/proj/scripts/sub",
   file "/proj/scripts/sub/inner.py" ""]

/-- The setup arguments produced by evaluating the manifest on `fsC1` from
working directory `/proj` with `__file__ = "setup.py"`. -/
def argsC1 : SetupArgs :=
  { name := "mpinterfaces"
    version := "1.1.2"
    install_requires := install_requires
    extras_require := extras_require
    author := "Kiran Mathew, Joshua Gabriel, Arunima Singh, Richard G. Hennig"
    author_email := "km468@cornell.edu"
    description := "High throughput analysis of interfaces using VASP and Materials Project tools"
    license := "GPL"
    url := "https://github.com/henniggroup/MPInterfaces"
    packages := []
    long_description := "MPInterfaces"
    classifiers := classifiers
    scripts := ["/proj/scripts/run_all.py", "/proj/scripts/sub"] }

/-- A concrete filesystem in which `README.rst` is missing. -/
def fsNoReadme : FS :=
  [file "/proj/setup.py" "", dirEntry "/proj/scripts"]

end MPInt

namespace MPInt

/-! Helper lemmas about the path operations and the manifest evaluation. -/

lemma isAbs_append (a b : String) (h : isAbs a = true) : isAbs (a ++ b) = true := by
  simp only [isAbs, String.toList, beq_iff_eq] at h ⊢
  rw [String.data_append, List.head?_append, h]
  rfl

lemma isAbs_pathJoin (a b : String) (h : isAbs a = true) : isAbs (pathJoin a b) = true := by
  unfold pathJoin
  split
  · next hb => exact hb
  · split
    · exact isAbs_append a b h
    · exact isAbs_append (a ++ "/") b (isAbs_append a "/" h)

lemma isAbs_abspath (cwd p : String) (h : isAbs cwd = true) :
    isAbs (abspath cwd p) = true := by
  unfold abspath
  split
  · next hp => exact hp
  · exact isAbs_pathJoin cwd p h

lemma getLast?_of_suffix {s r : List Char} (h : s <:+ r) (hs : s ≠ []) :
    r.getLast? = s.getLast? := by
  obtain ⟨t, rfl⟩ := h
  rw [List.getLast?_append]
  cases hl : s.getLast? with
  | none => exact absurd (List.getLast?_eq_none_iff.mp hl) hs
  | some a => rfl

lemma isAbs_mk (l : List Char) (h : l.head? = some '/') :
    isAbs (String.mk l) = true := by
  simp only [isAbs, String.toList, beq_iff_eq]
  exact h

lemma isAbs_dirname (p : String) (h : isAbs p = true) : isAbs (dirname p) = true := by
  simp only [isAbs, String.toList, beq_iff_eq] at h
  have hrev : (dirnameHead p).reverse = p.data.reverse.dropWhile (fun c => c != '/') := by
    simp [dirnameHead, String.toList]
  have hne : dirnameHead p ≠ [] := by
    intro h0
    have h1 : p.data.reverse.dropWhile (fun c => c != '/') = [] := by
      rw [← hrev, h0, List.reverse_nil]
    obtain ⟨ys, hys⟩ := List.head?_eq_some_iff.mp h
    have h2 := List.dropWhile_eq_nil_iff.mp h1 '/' (by rw [hys]; simp)
    simp at h2
  have hhead : (dirnameHead p).head? = some '/' := by
    have hsuf : p.data.reverse.dropWhile (fun c => c != '/') <:+ p.data.reverse :=
      List.dropWhile_suffix _
    have hsne : p.data.reverse.dropWhile (fun c => c != '/') ≠ [] := by
      rw [← hrev]
      simpa using hne
    have h3 := getLast?_of_suffix hsuf hsne
    rw [List.getLast?_reverse, h] at h3
    rw [← List.reverse_reverse (dirnameHead p), List.head?_reverse, hrev]
    exact h3.symm
  unfold dirname
  rw [if_neg hne]
  by_cases hall : (dirnameHead p).all (fun c => c == '/') = true
  · rw [if_pos hall]
    exact isAbs_mk _ hhead
  · rw [if_neg hall]
    apply isAbs_mk
    unfold stripTrailingSlashes
    set u := (dirnameHead p).reverse.dropWhile (fun c => c == '/') with hu
    have hune : u ≠ [] := by
      intro h0
      apply hall
      rw [List.all_eq_true]
      intro x hx
      exact List.dropWhile_eq_nil_iff.mp h0 x (List.mem_reverse.mpr hx)
    have husuf : u <:+ (dirnameHead p).reverse := List.dropWhile_suffix _
    have h4 := getLast?_of_suffix husuf hune
    rw [List.getLast?_reverse, hhead] at h4
    rw [List.head?_reverse]
    exact h4.symm

lemma evalManifest_ok_fields (fs : FS) (cwd f : String) (res : String → Bool)
    (args : SetupArgs) (h : evalManifest fs cwd f res = .ok args) :
    args.scripts = scriptsOf fs cwd f ∧
    args.author = "Kiran Mathew, Joshua Gabriel, Arunima Singh, Richard G. Hennig" ∧
    args.author_email = "km468@cornell.edu" ∧
    args.license = "GPL" ∧
    args.classifiers = classifiers := by
  unfold evalManifest at h
  cases hr : readFile fs (readmeResolved cwd f) with
  | none =>
    rw [hr] at h
    exact Except.noConfusion h
  | some ld =>
    rw [hr] at h
    by_cases hd : install_requires.all res = true
    · simp only [hd, if_true] at h
      cases h
      exact ⟨rfl, rfl, rfl, rfl, rfl⟩
    · simp only [hd, if_false] at h
      exact Except.noConfusion h

/-- Claim C3: the manifest declares exactly five runtime dependencies and
each entry of `install_requires` carries a version constraint. -/
theorem c3_install_requires_five_constrained :
    install_requires.length = 5 ∧ install_requires.all hasVersionConstraint = true := by
  decide

/-- Claim C4: the manifest declares exactly four optional dependency groups,
keyed `plot`, `babel`, `remote`, `doc`, each mapping to a non-empty list. -/
theorem c4_extras_four_groups :
    extras_require.length = 4 ∧
    extras_require.map Prod.fst = ["plot", "babel", "remote", "doc"] ∧
    extras_require.all (fun kv => !kv.2.isEmpty) = true := by
  decide

/-- Claim C1, counterexample: on a filesystem with a hidden file
`scripts/.hidden`, that file is a file under the scripts directory but is not
in the scripts list the manifest registers, so the scripts argument does not
equal the set of all files under the directory. -/
theorem c1_counterexample :
    "/proj/scripts/.hidden" ∈ filesUnder fsC1 (scriptsGlobDir "/proj" "setup.py") ∧
    "/proj/scripts/.hidden" ∉
      scriptsResult (evalManifest fsC1 "/proj" "setup.py" (fun _ => true)) := by
  decide

/-- Claim C1, amended: the scripts argument passed to `setup` equals the
result of the glob `MPINT_DIR/scripts/*`, i.e. the non-hidden direct entries
of the scripts directory (regular files and subdirectories alike), not the
set of all files under it: dot-named entries and files nested in
subdirectories are excluded. -/
theorem c1_scripts_from_glob (fs : FS) (cwd f : String) (res : String → Bool)
    (args : SetupArgs) (h : evalManifest fs cwd f res = .ok args) :
    args.scripts = globStar fs (scriptsGlobDir cwd f) :=
  (evalManifest_ok_fields fs cwd f res args h).1

/-- Witness for the amended Claim C1 at a concrete filesystem. -/
theorem c1_scripts_from_glob_witness :
    argsC1.scripts = globStar fsC1 (scriptsGlobDir "/proj" "setup.py") :=
  c1_scripts_from_glob fsC1 "/proj" "setup.py" (fun _ => true) argsC1 rfl

/-- Claim C2: evaluating the manifest fails exactly when `README.rst` cannot
be read or a declared dependency is unresolvable; and when `README.rst` is
missing the eager read raises before any metadata is registered, whatever
the dependency environment. -/
theorem c2_failure_iff (fs : FS) (cwd f : String) (res : String → Bool) :
    (resultArgs (evalManifest fs cwd f res) = none ↔
      readFile fs (readmeResolved cwd f) = none ∨ install_requires.all res = false) ∧
    (readFile fs (readmeResolved cwd f) = none →
      evalManifest fs cwd f res = .error readmeError) := by
  cases hr : readFile fs (readmeResolved cwd f) with
  | none =>
    constructor
    · simp [evalManifest, hr, resultArgs]
    · intro _
      simp [evalManifest, hr]
  | some ld =>
    constructor
    · by_cases hd : install_requires.all res = true
      · simp [evalManifest, hr, hd, resultArgs]
      · rw [Bool.not_eq_true] at hd
        simp [evalManifest, hr, hd, resultArgs]
    · intro hn
      exact Option.noConfusion hn

/-- Witness for Claim C2: on a filesystem without `README.rst`, evaluation
stops with the eager-read error. -/
theorem c2_failure_iff_witness :
    evalManifest fsNoReadme "/proj" "setup.py" (fun _ => true) = .error readmeError :=
  (c2_failure_iff fsNoReadme "/proj" "setup.py" (fun _ => true)).2 (by decide)

/-- Claim C5: the setup call carries author, author_email, license and
classifiers arguments, all non-empty. -/
theorem c5_metadata (fs : FS) (cwd f : String) (res : String → Bool)
    (args : SetupArgs) (h : evalManifest fs cwd f res = .ok args) :
    args.author ≠ "" ∧ args.author_email ≠ "" ∧ args.license ≠ "" ∧
    args.classifiers ≠ [] := by
  obtain ⟨-, ha, he, hl, hc⟩ := evalManifest_ok_fields fs cwd f res args h
  rw [ha, he, hl, hc]
  refine ⟨?_, ?_, ?_, ?_⟩ <;> decide

/-- Witness for Claim C5 at a concrete filesystem. -/
theorem c5_metadata_witness :
    argsC1.author ≠ "" ∧ argsC1.author_email ≠ "" ∧ argsC1.license ≠ "" ∧
    argsC1.classifiers ≠ [] :=
  c5_metadata fsC1 "/proj" "setup.py" (fun _ => true) argsC1 rfl

/-- Claim C6: when all declared dependencies resolve and `README.rst` is
readable at the resolved location, evaluating the manifest succeeds. -/
theorem c6_success (fs : FS) (cwd f : String) (res : String → Bool)
    (hdeps : install_requires.all res = true)
    (hread : (readFile fs (readmeResolved cwd f)).isSome = true) :
    (resultArgs (evalManifest fs cwd f res)).isSome = true := by
  cases hr : readFile fs (readmeResolved cwd f) with
  | none =>
    rw [hr] at hread
    exact Bool.noConfusion hread
  | some ld =>
    simp [evalManifest, hr, hdeps, resultArgs]

/-- Witness for Claim C6 at a concrete filesystem. -/
theorem c6_success_witness :
    (resultArgs (evalManifest fsC1 "/proj" "setup.py" (fun _ => true))).isSome = true :=
  c6_success fsC1 "/proj" "setup.py" (fun _ => true) (by decide) (by decide)

/-- Claim C7: two invocations of the manifest whose `__file__` absolutizes to
the same path (the same manifest file reached from different working
directories) register the same scripts list, because the glob ranges over
the absolutized directory of the manifest. -/
theorem c7_cwd_invariance (fs : FS) (cwd1 f1 cwd2 f2 : String)
    (h : abspath cwd1 f1 = abspath cwd2 f2) :
    scriptsOf fs cwd1 f1 = scriptsOf fs cwd2 f2 := by
  unfold scriptsOf scriptsGlobDir MPINT_DIR
  rw [h]

/-- Witness for Claim C7: invoking from `/proj` by bare filename and from `/`
by absolute path yields the same scripts list. -/
theorem c7_cwd_invariance_witness :
    scriptsOf fsC1 "/proj" "setup.py" = scriptsOf fsC1 "/" "/proj/setup.py" :=
  c7_cwd_invariance fsC1 "/proj" "setup.py" "/" "/proj/setup.py" (by decide)

/-- Claim C8: an entry whose name begins with a dot is never registered as a
script; any direct entry of the scripts directory whose name does not begin
with a dot is registered, directory or not; and an entry whose parent is not
the scripts directory (in particular a file inside a subdirectory) is not
registered. -/
theorem c8_glob_shape (fs : FS) (cwd f : String) (e : FSEntry) (he : e ∈ fs) :
    (startsWithDot (basename e.path) = true → e.path ∉ scriptsOf fs cwd f) ∧
    (dirname e.path = scriptsGlobDir cwd f → startsWithDot (basename e.path) = false →
      e.path ∈ scriptsOf fs cwd f) ∧
    (dirname e.path ≠ scriptsGlobDir cwd f → e.path ∉ scriptsOf fs cwd f) := by
  refine ⟨?_, ?_, ?_⟩
  · intro hdot hmem
    simp only [scriptsOf, globStar, List.mem_map, List.mem_filter,
      Bool.and_eq_true, beq_iff_eq, Bool.not_eq_true'] at hmem
    obtain ⟨e', ⟨he', hq1, hq2⟩, hp⟩ := hmem
    rw [hp, hdot] at hq2
    exact Bool.noConfusion hq2
  · intro hd hdot
    simp only [scriptsOf, globStar, List.mem_map]
    refine ⟨e, List.mem_filter.mpr ⟨he, ?_⟩, rfl⟩
    rw [Bool.and_eq_true, beq_iff_eq, Bool.not_eq_true']
    exact ⟨hd, hdot⟩
  · intro hne hmem
    simp only [scriptsOf, globStar, List.mem_map, List.mem_filter,
      Bool.and_eq_true, beq_iff_eq, Bool.not_eq_true'] at hmem
    obtain ⟨e', ⟨he', hq1, hq2⟩, hp⟩ := hmem
    rw [hp] at hq1
    exact hne hq1

/-- Witness for Claim C8: on a concrete filesystem, the hidden file is
excluded, the subdirectory is registered, and the file inside the
subdirectory is not. -/
theorem c8_glob_shape_witness :
    "/proj/scripts/.hidden" ∉ scriptsOf fsC1 "/proj" "setup.py" ∧
    "/proj/scripts/sub" ∈ scriptsOf fsC1 "/proj" "setup.py" ∧
    "/proj/scripts/sub/inner.py" ∉ scriptsOf fsC1 "/proj" "setup.py" :=
  ⟨(c8_glob_shape fsC1 "/proj" "setup.py" (file "/proj/scripts/.hidden" "")
      (by decide)).1 (by decide),
   (c8_glob_shape fsC1 "/proj" "setup.py" (dirEntry "/proj/scripts/sub")
      (by decide)).2.1 (by decide) (by decide),
   (c8_glob_shape fsC1 "/proj" "setup.py" (file "/proj/scripts/sub/inner.py" "")
      (by decide)).2.2 (by decide)⟩

/-- Claim C9: the README path is built from the raw directory component of
`__file__`, so with an empty directory component it resolves relative to the
working directory; the scripts glob directory, by contrast, is absolute
whenever the working directory is. -/
theorem c9_readme_relative (cwd f : String) (hf : dirname f = "")
    (hc : isAbs cwd = true) :
    readmeResolved cwd f = pathJoin cwd "README.rst" ∧
    isAbs (scriptsGlobDir cwd f) = true := by
  constructor
  · have h1 : readmeRelPath f = "README.rst" := by
      rw [readmeRelPath, hf]
      decide
    have h2 : isAbs "README.rst" = false := by decide
    rw [readmeResolved, h1]
    simp [abspath, h2]
  · exact isAbs_pathJoin _ _ (isAbs_dirname _ (isAbs_abspath cwd f hc))

/-- Witness for Claim C9: invoked by bare filename from `/work`, the README
is looked up in `/work`, while the scripts glob directory is absolute. -/
theorem c9_readme_relative_witness :
    readmeResolved "/work" "setup.py" = pathJoin "/work" "README.rst" ∧
    isAbs (scriptsGlobDir "/work" "setup.py") = true :=
  c9_readme_relative "/work" "setup.py" (by decide) (by decide)

end MPInt
